import Mathlib

/-
  Shallow embedding of the pricing and scenario-projection engine of the
  options-strategy simulator (two near-duplicate page variants: the file
  called part_001 here, and src/pages/Index.tsx).  Pure functions of the
  source are translated to Lean functions over exact arithmetic: JS
  numbers become rationals where the source only adds, subtracts,
  multiplies and divides, and reals where the source calls Math.exp,
  Math.log or Math.sqrt.  JS Date month arithmetic, including the
  day-overflow normalisation of setMonth, is modelled explicitly.
-/

namespace OptionsSim

/-! ## Calendar model (the JS Date operations the source uses) -/

/-- Gregorian leap-year rule, as implemented by JS Date. -/
def isLeapYear (y : ℕ) : Bool := y % 4 == 0 && (y % 100 != 0 || y % 400 == 0)

/-- Number of days of month `m` (0-based, as JS getMonth) of year `y`. -/
def daysInMonth (y m : ℕ) : ℕ :=
  if m = 1 then (if isLeapYear y then 29 else 28)
  else if m = 3 ∨ m = 5 ∨ m = 8 ∨ m = 10 then 30
  else 31

/-- A JS Date at day granularity: 0-based month, 1-based day of month. -/
structure JsDate where
  year : ℕ
  month : ℕ
  day : ℕ
deriving DecidableEq, Repr

/-- Absolute month index; two dates get the same index exactly when the JS
month key string built from getFullYear and getMonth coincides. -/
def monthIdx (d : JsDate) : ℕ := d.year * 12 + d.month

/-- JS date.setMonth (date.getMonth () + k): the month field is advanced
and, when the day of month exceeds the target month length, the date
rolls over into the following month (Jan 31 plus one month is Mar 3). -/
def setMonthAdd (d : JsDate) (k : ℕ) : JsDate :=
  if d.day ≤ daysInMonth ((d.year * 12 + d.month + k) / 12) ((d.year * 12 + d.month + k) % 12) then
    ⟨(d.year * 12 + d.month + k) / 12, (d.year * 12 + d.month + k) % 12, d.day⟩
  else
    ⟨(d.year * 12 + d.month + k + 1) / 12, (d.year * 12 + d.month + k + 1) % 12,
      d.day - daysInMonth ((d.year * 12 + d.month + k) / 12) ((d.year * 12 + d.month + k) % 12)⟩

/-- The cumulative loop date of applyStressTest: the current date after `n`
successive setMonth (getMonth () + 1) mutations. -/
def stressDate (start : JsDate) (n : ℕ) : JsDate :=
  (fun c => setMonthAdd c 1)^[n] start

theorem daysInMonth_ge_28 (y m : ℕ) : 28 ≤ daysInMonth y m := by
  unfold daysInMonth
  split
  · split <;> omega
  · split <;> omega

theorem setMonthAdd_monthIdx (d : JsDate) (k : ℕ) (h : d.day ≤ 28) :
    monthIdx (setMonthAdd d k) = monthIdx d + k ∧ (setMonthAdd d k).day = d.day := by
  have h28 := daysInMonth_ge_28 ((d.year * 12 + d.month + k) / 12)
    ((d.year * 12 + d.month + k) % 12)
  have hle : d.day ≤ daysInMonth ((d.year * 12 + d.month + k) / 12)
      ((d.year * 12 + d.month + k) % 12) := le_trans h h28
  unfold setMonthAdd
  rw [if_pos hle]
  dsimp only [monthIdx]
  omega

theorem stressDate_monthIdx (start : JsDate) (h : start.day ≤ 28) (n : ℕ) :
    monthIdx (stressDate start n) = monthIdx start + n ∧ (stressDate start n).day = start.day := by
  induction n with
  | zero => simp [stressDate]
  | succ k ih =>
      have hstep := setMonthAdd_monthIdx (stressDate start k) 1 (ih.2 ▸ h)
      unfold stressDate at *
      rw [Function.iterate_succ_apply']
      exact ⟨by rw [hstep.1, ih.1]; omega, by rw [hstep.2, ih.2]⟩

/-! ## Time to maturity (part_001 calculateResults) -/

/-- Time to maturity of period `i` in a horizon of `m` months starting at
`start`, as computed by calculateResults in part_001: period 0 uses the
remaining days of the start month over the month length, scaled by the
horizon; later periods use i / m. -/
def timeToMaturity (start : JsDate) (m : ℕ) (i : ℕ) : ℚ :=
  let totalDaysInFirstMonth : ℚ := daysInMonth start.year start.month
  let daysInFirstMonth : ℚ := totalDaysInFirstMonth - start.day + 1
  if i = 0 then daysInFirstMonth / (totalDaysInFirstMonth * m)
  else (i : ℚ) / m

/-! ## Stress-test scenario catalog (part_001) -/

/-- A stress-test scenario record; forwardBasis and realBasis are the two
optional curve-shift fields of the source records. -/
structure StressTestScenario where
  name : String
  description : String
  volatility : ℚ
  drift : ℚ
  priceShock : ℚ
  forwardBasis : Option ℚ := none
  realBasis : Option ℚ := none
  isEditable : Bool := false
  isCustom : Bool := false
deriving DecidableEq, Repr

/-- JS truthiness of an optional numeric field: undefined and 0 are falsy. -/
def jsTruthy (o : Option ℚ) : Bool :=
  match o with
  | none => false
  | some v => v != 0

def scnBase : StressTestScenario :=
  { name := "Base Case", description := "Normal market conditions",
    volatility := 0.2, drift := 0.01, priceShock := 0,
    forwardBasis := some 0, isEditable := true }

def scnHighVol : StressTestScenario :=
  { name := "High Volatility", description := "Double volatility scenario",
    volatility := 0.4, drift := 0.01, priceShock := 0,
    forwardBasis := some 0, isEditable := true }

def scnCrash : StressTestScenario :=
  { name := "Market Crash", description := "High volatility, negative drift, price shock",
    volatility := 0.5, drift := -0.03, priceShock := -0.2,
    forwardBasis := some 0, isEditable := true }

def scnBull : StressTestScenario :=
  { name := "Bull Market", description := "Low volatility, positive drift, upward shock",
    volatility := 0.15, drift := 0.02, priceShock := 0.1,
    forwardBasis := some 0, isEditable := true }

def scnContango : StressTestScenario :=
  { name := "Contango", description := "Forward prices higher than spot (monthly basis in %)",
    volatility := 0.2, drift := 0.01, priceShock := 0,
    forwardBasis := some 0.01, isEditable := true }

def scnBackwardation : StressTestScenario :=
  { name := "Backwardation", description := "Forward prices lower than spot (monthly basis in %)",
    volatility := 0.2, drift := 0.01, priceShock := 0,
    forwardBasis := some (-0.01), isEditable := true }

def scnContangoReal : StressTestScenario :=
  { name := "Contango (Real Prices)", description := "Real prices higher than spot (monthly basis in %)",
    volatility := 0.2, drift := 0.01, priceShock := 0,
    realBasis := some 0.01, isEditable := true }

def scnBackwardationReal : StressTestScenario :=
  { name := "Backwardation (Real Prices)", description := "Real prices lower than spot (monthly basis in %)",
    volatility := 0.2, drift := 0.01, priceShock := 0,
    realBasis := some (-0.01), isEditable := true }

def scnCustom : StressTestScenario :=
  { name := "Custom Case", description := "User-defined scenario",
    volatility := 0.2, drift := 0.01, priceShock := 0,
    forwardBasis := some 0, isCustom := true }

/-- The built-in stress-test catalog of part_001, in source order. -/
def defaultScenarios : List (String × StressTestScenario) :=
  [("base", scnBase), ("highVol", scnHighVol), ("crash", scnCrash), ("bull", scnBull),
   ("contango", scnContango), ("backwardation", scnBackwardation),
   ("contangoReal", scnContangoReal), ("backwardationReal", scnBackwardationReal),
   ("custom", scnCustom)]

/-! ## Yearly aggregation (calculateYearlyResults in part_001) -/

/-- The fields of a per-period result row that calculateYearlyResults reads. -/
structure ResultRow where
  date : String
  hedgedCost : ℚ
  unhedgedCost : ℚ
  deltaPnL : ℚ
deriving DecidableEq, Repr

structure YearlyResult where
  hedgedCost : ℚ
  unhedgedCost : ℚ
  deltaPnL : ℚ
deriving DecidableEq, Repr

/-- Character-level split, structurally recursive so that it evaluates by
kernel reduction; same behaviour as JS String.split with a one-character
separator on the strings at hand. -/
def splitAux (sep : Char) : List Char → List Char → List (List Char)
  | [], cur => [cur.reverse]
  | c :: rest, cur =>
      if c = sep then cur.reverse :: splitAux sep rest []
      else splitAux sep rest (c :: cur)

def splitChar (sep : Char) (s : String) : List (List Char) := splitAux sep s.data []

/-- The grouping key of calculateYearlyResults: row.date.split (one space)
at position 1.  On a date with no space, the JS expression is undefined,
modelled as none. -/
def yearOf (date : String) : Option (List Char) := (splitChar ' ' date).get? 1

/-- One step of the JS reduce of calculateYearlyResults: create the bucket
of the key with zeros when absent, then add the three cost fields. -/
def addYearRow (acc : List (Option (List Char) × YearlyResult)) (row : ResultRow) :
    List (Option (List Char) × YearlyResult) :=
  let y := yearOf row.date
  if acc.any (fun e => e.1 = y) then
    acc.map (fun e =>
      if e.1 = y then
        (e.1, { hedgedCost := e.2.hedgedCost + row.hedgedCost,
                unhedgedCost := e.2.unhedgedCost + row.unhedgedCost,
                deltaPnL := e.2.deltaPnL + row.deltaPnL })
      else e)
  else
    acc ++ [(y, { hedgedCost := row.hedgedCost, unhedgedCost := row.unhedgedCost,
                  deltaPnL := row.deltaPnL })]

/-- calculateYearlyResults of part_001: reduce over the rows, keyed by
row.date.split (one space) at position 1, in first-seen order. -/
def calculateYearlyResults (results : List ResultRow) :
    List (Option (List Char) × YearlyResult) :=
  results.foldl addYearRow []

/-- Zero-padding of toISOString month and day fields. -/
def pad2 (n : ℕ) : String := if n < 10 then "0" ++ toString n else toString n

/-- The date string stored in a part_001 result row:
date.toISOString ().split (letter T) [0], i.e. YYYY-MM-DD. -/
def isoDate (d : JsDate) : String :=
  toString d.year ++ "-" ++ pad2 (d.month + 1) ++ "-" ++ pad2 d.day

/-- The date string of period `i` of a projection starting at `start`,
as produced by calculateResults in part_001. -/
def periodDateString (start : JsDate) (i : ℕ) : String := isoDate (setMonthAdd start i)

/-! ## Claim C4 -/

/-- C4: in every projected period sequence, period 0 has time to maturity
equal to the fraction of the start month remaining (days remaining over
days in the month) divided by monthsToHedge, and every period i with
1 ≤ i has time to maturity exactly i / monthsToHedge. -/
theorem timeToMaturity_stub_and_linear (start : JsDate) (m : ℕ) :
    timeToMaturity start m 0
      = (((daysInMonth start.year start.month : ℚ) - start.day + 1)
          / (daysInMonth start.year start.month : ℚ)) / m
    ∧ ∀ i : ℕ, 1 ≤ i → timeToMaturity start m i = (i : ℚ) / m := by
  constructor
  · unfold timeToMaturity
    simp [div_div]
  · intro i hi
    unfold timeToMaturity
    rw [if_neg (by omega)]

/-- Witness for C4 at a concrete start date and horizon. -/
theorem timeToMaturity_stub_and_linear_witness :
    (1 ≤ 3) ∧ timeToMaturity ⟨2024, 0, 15⟩ 12 3 = (3 : ℚ) / 12 :=
  ⟨by norm_num, (timeToMaturity_stub_and_linear ⟨2024, 0, 15⟩ 12).2 3 (by norm_num)⟩

/-! ## Claim C9 -/

/-- C9: the yearly aggregation of part_001 does not group by calendar
year.  The result rows of part_001 carry ISO dates of the form
YYYY-MM-DD, which contain no space, so row.date.split at a space has no
element at index 1 and every row is filed under the same undefined key:
a January 2024 row and a January 2025 row produced by the projector end
up summed in one single bucket instead of two year buckets. -/
theorem calculateYearlyResults_iso_dates_collapse :
    calculateYearlyResults
      [{ date := periodDateString ⟨2024, 0, 15⟩ 0, hedgedCost := 1, unhedgedCost := 2,
         deltaPnL := 1 },
       { date := periodDateString ⟨2024, 0, 15⟩ 12, hedgedCost := 10, unhedgedCost := 20,
         deltaPnL := 10 }]
      = [(none, { hedgedCost := 11, unhedgedCost := 22, deltaPnL := 11 })] := by
  have h1 : yearOf (periodDateString ⟨2024, 0, 15⟩ 0) = none := by decide
  have h2 : yearOf (periodDateString ⟨2024, 0, 15⟩ 12) = none := by decide
  simp only [calculateYearlyResults, List.foldl, addYearRow, h1, h2]
  norm_num

/-! ## Error function and normal CDF (Abramowitz-Stegun approximation) -/

noncomputable section

open scoped Classical

def erfA1 : ℝ := 0.254829592
def erfA2 : ℝ := -0.284496736
def erfA3 : ℝ := 1.421413741
def erfA4 : ℝ := -1.453152027
def erfA5 : ℝ := 1.061405429
def erfP : ℝ := 0.3275911

/-- The polynomial factor of the five-term approximation, exactly as the
Index.tsx erf builds it. -/
def erfPoly (t : ℝ) : ℝ := (((((erfA5*t + erfA4)*t) + erfA3)*t + erfA2)*t + erfA1)*t

/-- The erf implementation of src/pages/Index.tsx: sign split, absolute
value, t = 1/(1 + p x), then the five-term polynomial times exp (-x*x). -/
def erf (x : ℝ) : ℝ :=
  let sign : ℝ := if x < 0 then -1 else 1
  let ax := |x|
  let t := 1/(1 + erfP*ax)
  let y := 1 - erfPoly t * Real.exp (-(ax*ax))
  sign * y

/-- The polynomial factor as transcribed in part_001, whose erf drops the
erfA1 term (the constant is declared there but never used). -/
def erfPolyDropA1 (t : ℝ) : ℝ := ((((erfA5*t + erfA4)*t) + erfA3)*t + erfA2)*t

/-- The erf implementation of part_001: identical to the Index.tsx one
except that the polynomial misses the erfA1 term. -/
def erfDropA1 (x : ℝ) : ℝ :=
  let sign : ℝ := if x < 0 then -1 else 1
  let ax := |x|
  let t := 1/(1 + erfP*ax)
  let y := 1 - erfPolyDropA1 t * Real.exp (-(ax*ax))
  sign * y

/-- The normal CDF as the option pricers build it from erf. -/
def cdf (x : ℝ) : ℝ := (1 + erf (x / Real.sqrt 2)) / 2

/-- The normal CDF built from the part_001 erf variant. -/
def cdfDropA1 (x : ℝ) : ℝ := (1 + erfDropA1 (x / Real.sqrt 2)) / 2

theorem R_nonneg {s t : ℝ} (hs0 : 0 ≤ s) (hs1 : s ≤ 1) (ht0 : 0 ≤ t) (ht1 : t ≤ 1) :
    0 ≤ erfA1 + erfA2*(s+t) + erfA3*(s^2+s*t+t^2) + erfA4*(s^3+s^2*t+s*t^2+t^3)
        + erfA5*(s^4+s^3*t+s^2*t^2+s*t^3+t^4) := by
  unfold erfA1 erfA2 erfA3 erfA4 erfA5
  nlinarith [sq_nonneg (s - t), sq_nonneg (s + t), sq_nonneg (s*t), sq_nonneg (s + t - 1),
    mul_nonneg hs0 ht0, mul_nonneg (sub_nonneg.2 hs1) (sub_nonneg.2 ht1),
    mul_nonneg (mul_nonneg hs0 ht0) (mul_nonneg hs0 ht0),
    sq_nonneg (s*s - t*t), sq_nonneg (s*s + t*t), sq_nonneg (s + t - s*t),
    mul_nonneg (mul_nonneg hs0 hs0) (mul_nonneg ht0 ht0),
    sq_nonneg (s*t - 1), sq_nonneg (s*s*t - 1), sq_nonneg (s*t*t - 1)]

theorem erfPoly_mono {s t : ℝ} (hs0 : 0 ≤ s) (hst : s ≤ t) (ht1 : t ≤ 1) :
    erfPoly s ≤ erfPoly t := by
  have hR := R_nonneg hs0 (le_trans hst ht1) (le_trans hs0 hst) ht1
  have hfact : erfPoly t - erfPoly s
      = (t - s) * (erfA1 + erfA2*(s+t) + erfA3*(s^2+s*t+t^2)
          + erfA4*(s^3+s^2*t+s*t^2+t^3) + erfA5*(s^4+s^3*t+s^2*t^2+s*t^3+t^4)) := by
    unfold erfPoly
    ring
  nlinarith [mul_nonneg (sub_nonneg.2 hst) hR]

theorem erfPoly_nonneg {t : ℝ} (ht0 : 0 ≤ t) (ht1 : t ≤ 1) : 0 ≤ erfPoly t := by
  have h := erfPoly_mono (le_refl 0) ht0 ht1
  have h0 : erfPoly 0 = 0 := by
    unfold erfPoly
    ring
  linarith

theorem erfPoly_one : erfPoly 1 = 0.999999999 := by
  unfold erfPoly erfA1 erfA2 erfA3 erfA4 erfA5
  norm_num

theorem erfPoly_le_one {t : ℝ} (ht0 : 0 ≤ t) (ht1 : t ≤ 1) : erfPoly t ≤ 1 := by
  have h := erfPoly_mono ht0 ht1 (le_refl 1)
  have h1 : erfPoly 1 ≤ 1 := by
    rw [erfPoly_one]
    norm_num
  linarith

def tSub (x : ℝ) : ℝ := 1/(1 + erfP*x)

theorem erfP_pos : (0:ℝ) < erfP := by
  unfold erfP
  norm_num

theorem tSub_pos {x : ℝ} (hx : 0 ≤ x) : 0 < tSub x := by
  have := erfP_pos
  unfold tSub
  positivity

theorem tSub_le_one {x : ℝ} (hx : 0 ≤ x) : tSub x ≤ 1 := by
  have hp := erfP_pos
  have h1 : (1:ℝ) ≤ 1 + erfP * x := by nlinarith
  have h0 : (0:ℝ) < 1 + erfP * x := by linarith
  unfold tSub
  rw [div_le_one h0]
  linarith

theorem tSub_anti {x y : ℝ} (hx : 0 ≤ x) (hxy : x ≤ y) : tSub y ≤ tSub x := by
  have hp := erfP_pos
  have h0 : (0:ℝ) < 1 + erfP * x := by nlinarith
  have h1 : 1 + erfP * x ≤ 1 + erfP * y := by nlinarith
  unfold tSub
  exact one_div_le_one_div_of_le h0 h1

/-- The subtracted term of the approximation for nonnegative arguments. -/
def gsub (x : ℝ) : ℝ := erfPoly (tSub x) * Real.exp (-(x*x))

theorem gsub_nonneg {x : ℝ} (hx : 0 ≤ x) : 0 ≤ gsub x :=
  mul_nonneg (erfPoly_nonneg (tSub_pos hx).le (tSub_le_one hx)) (Real.exp_nonneg _)

theorem gsub_anti {x y : ℝ} (hx : 0 ≤ x) (hxy : x ≤ y) : gsub y ≤ gsub x := by
  have hy : 0 ≤ y := le_trans hx hxy
  have h1 : erfPoly (tSub y) ≤ erfPoly (tSub x) :=
    erfPoly_mono (tSub_pos hy).le (tSub_anti hx hxy) (tSub_le_one hx)
  have h2 : Real.exp (-(y*y)) ≤ Real.exp (-(x*x)) := by
    apply Real.exp_le_exp.2
    nlinarith
  exact mul_le_mul h1 h2 (Real.exp_nonneg _) (erfPoly_nonneg (tSub_pos hx).le (tSub_le_one hx))

theorem gsub_zero : gsub 0 = erfPoly 1 := by
  unfold gsub tSub
  norm_num

theorem gsub_le_one {x : ℝ} (hx : 0 ≤ x) : gsub x ≤ 1 := by
  have h := gsub_anti (le_refl 0) hx
  have h1 : erfPoly 1 ≤ 1 := erfPoly_le_one (by norm_num) (le_refl 1)
  rw [gsub_zero] at h
  linarith

theorem erf_of_nonneg {x : ℝ} (hx : 0 ≤ x) : erf x = 1 - gsub x := by
  unfold erf gsub tSub
  rw [if_neg (not_lt.2 hx), abs_of_nonneg hx]
  ring

theorem erf_of_neg {x : ℝ} (hx : x < 0) : erf x = -(1 - gsub (-x)) := by
  unfold erf gsub tSub
  rw [if_pos hx, abs_of_neg hx]
  ring_nf

theorem erf_monotone : Monotone erf := by
  intro x y hxy
  rcases lt_or_le x 0 with hx | hx
  · rcases lt_or_le y 0 with hy | hy
    · rw [erf_of_neg hx, erf_of_neg hy]
      have := gsub_anti (by linarith : (0:ℝ) ≤ -y) (by linarith : -y ≤ -x)
      linarith
    · rw [erf_of_neg hx, erf_of_nonneg hy]
      have h1 := gsub_le_one (by linarith : (0:ℝ) ≤ -x)
      have h2 := gsub_le_one hy
      linarith
  · rw [erf_of_nonneg hx, erf_of_nonneg (le_trans hx hxy)]
    have := gsub_anti hx hxy
    linarith

theorem erf_neg_arg {x : ℝ} (hx : x ≠ 0) : erf (-x) = - erf x := by
  rcases lt_or_gt_of_ne hx with h | h
  · unfold erf
    rw [if_pos h, if_neg (by linarith : ¬ -x < 0), abs_of_neg h,
      abs_of_nonneg (by linarith : (0:ℝ) ≤ -x)]
    ring
  · unfold erf
    rw [if_neg (by linarith : ¬ x < 0), if_pos (by linarith : -x < 0), abs_of_pos h,
      abs_of_neg (by linarith : -x < 0)]
    ring_nf

theorem cdf_zero_value : cdf 0 = 0.5000000005 := by
  unfold cdf
  rw [zero_div, erf_of_nonneg (le_refl 0), gsub_zero, erfPoly_one]
  norm_num

theorem cdf_reflect {x : ℝ} (hx : x ≠ 0) : cdf (-x) = 1 - cdf x := by
  unfold cdf
  have h2 : Real.sqrt 2 ≠ 0 := by positivity
  rw [neg_div, erf_neg_arg (div_ne_zero hx h2)]
  ring

theorem cdf_monotone : Monotone cdf := by
  intro x y hxy
  unfold cdf
  have h2 : (0:ℝ) < Real.sqrt 2 := by positivity
  have := erf_monotone ((div_le_div_iff_of_pos_right h2).2 hxy)
  linarith

/-- The part_001 erf copy, with the erfA1 term dropped, is far from a
normal CDF at the origin: its cdf value at 0 is about 0.627. -/
theorem cdfDropA1_zero_value : cdfDropA1 0 = 0.6274147965 := by
  unfold cdfDropA1 erfDropA1 erfPolyDropA1 erfA2 erfA3 erfA4 erfA5 erfP
  norm_num

/-! ## Claim C3 -/

/-- C3 counterexample: even with the full five-term Abramowitz-Stegun
polynomial of Index.tsx, the coefficients sum to 0.999999999 rather than
1, so cdf 0 is 0.5000000005, not 0.5 (and the part_001 copy, which drops
the first coefficient, is off by 0.127 there). -/
theorem cdf_zero_ne_half : cdf 0 ≠ 1/2 := by
  rw [cdf_zero_value]
  norm_num

/-- C3 amended: cdf 0 equals 0.5000000005 exactly (within 10^-9 of 0.5),
the reflection identity cdf (-x) = 1 - cdf x holds for every nonzero x,
and cdf is monotonically non-decreasing on all of the reals. -/
theorem cdf_props_amended :
    cdf 0 = 0.5000000005
    ∧ (∀ x : ℝ, x ≠ 0 → cdf (-x) = 1 - cdf x)
    ∧ Monotone cdf :=
  ⟨cdf_zero_value, fun _ hx => cdf_reflect hx, cdf_monotone⟩

/-- Witness for C3 amended at x = 1. -/
theorem cdf_props_amended_witness : ((1:ℝ) ≠ 0) ∧ cdf (-1) = 1 - cdf 1 :=
  ⟨by norm_num, cdf_props_amended.2.1 1 (by norm_num)⟩

/-! ## Black-Scholes pricer and claim C6 -/

inductive OptionType where
  | call
  | put
deriving DecidableEq, Repr

/-- calculateOptionPrice: the Black-Scholes formula of both variants (the
implied-volatility override of part_001 only substitutes the sigma
argument and is modelled at the call sites). -/
def calculateOptionPrice (ty : OptionType) (S K r t sigma : ℝ) : ℝ :=
  let d1 := (Real.log (S/K) + (r + sigma^2/2)*t) / (sigma*Real.sqrt t)
  let d2 := d1 - sigma*Real.sqrt t
  let Nd1 := (1 + erf (d1/Real.sqrt 2))/2
  let Nd2 := (1 + erf (d2/Real.sqrt 2))/2
  match ty with
  | OptionType.call => S*Nd1 - K*Real.exp (-(r*t))*Nd2
  | OptionType.put => K*Real.exp (-(r*t))*(1-Nd2) - S*(1-Nd1)

/-- C6: put-call parity.  The call and put formulas share Nd1 and Nd2, so
the difference telescopes to S - K exp (-r t) exactly, for any positive
underlying, strike, time and volatility; exact equality in particular
implies the claimed 1e-4 tolerance. -/
theorem put_call_parity (S K r t sigma : ℝ) (hS : 0 < S) (hK : 0 < K) (ht : 0 < t)
    (hsig : 0 < sigma) :
    calculateOptionPrice OptionType.call S K r t sigma
      - calculateOptionPrice OptionType.put S K r t sigma
      = S - K * Real.exp (-(r*t)) := by
  unfold calculateOptionPrice
  ring

/-- Witness for C6 at S = 1, K = 1, r = 0, t = 1, sigma = 1. -/
theorem put_call_parity_witness :
    ((0:ℝ) < 1)
    ∧ calculateOptionPrice OptionType.call 1 1 0 1 1
        - calculateOptionPrice OptionType.put 1 1 0 1 1
        = 1 - 1 * Real.exp (-(0*1)) :=
  ⟨by norm_num, put_call_parity 1 1 0 1 1 (by norm_num) (by norm_num) (by norm_num) (by norm_num)⟩

/-! ## Per-period result computation (part_001 calculateResults) -/

inductive StrikeType where
  | percent
  | absolute
deriving DecidableEq, Repr

structure StrategyLeg where
  type : OptionType
  strike : ℝ
  strikeType : StrikeType
  volatility : ℝ
  quantity : ℝ

/-- Strike resolution: percent strikes are relative to the spot price. -/
def resolvedStrike (spot : ℝ) (opt : StrategyLeg) : ℝ :=
  match opt.strikeType with
  | StrikeType.percent => spot * (opt.strike / 100)
  | StrikeType.absolute => opt.strike

/-- The implied-volatility override: showImpliedVol together with a custom
volatility for the month key is modelled as an optional value, and a
falsy (zero) custom value falls back to the leg volatility, as the JS
conditional does. -/
def effectiveVolatility (customVol : Option ℝ) (v : ℝ) : ℝ :=
  match customVol with
  | some c => if c = 0 then v else c
  | none => v

structure OptionPriceRow where
  type : OptionType
  price : ℝ
  quantity : ℝ
  strike : ℝ

/-- The optionPrices array of a period: per leg, the Black-Scholes premium
at the forward price, the quantity fraction and the resolved strike. -/
def periodOptionPrices (strategy : List StrategyLeg) (spot forward r t : ℝ)
    (customVol : Option ℝ) : List OptionPriceRow :=
  strategy.map (fun opt =>
    { type := opt.type,
      price := calculateOptionPrice opt.type forward (resolvedStrike spot opt) r t
                 (effectiveVolatility customVol (opt.volatility / 100)),
      quantity := opt.quantity / 100,
      strike := resolvedStrike spot opt })

/-- strategyPrice: the reduce that sums premium times quantity. -/
def strategyPrice (rows : List OptionPriceRow) : ℝ :=
  rows.foldl (fun sum opt => sum + opt.price * opt.quantity) 0

def intrinsicValue (ty : OptionType) (price strike : ℝ) : ℝ :=
  match ty with
  | OptionType.call => max (price - strike) 0
  | OptionType.put => max (strike - price) 0

/-- totalPayoff: the reduce that sums intrinsic value at the real price
times quantity. -/
def totalPayoff (rows : List OptionPriceRow) (realPrice : ℝ) : ℝ :=
  rows.foldl (fun sum opt => sum + intrinsicValue opt.type realPrice opt.strike * opt.quantity) 0

structure PeriodResult where
  forward : ℝ
  realPrice : ℝ
  strategyPrice : ℝ
  totalPayoff : ℝ
  monthlyVolume : ℝ
  hedgedCost : ℝ
  unhedgedCost : ℝ
  deltaPnL : ℝ

/-- The per-period body of calculateResults in part_001, given the
resolved forward price, real price and monthly volume of the period. -/
def computePeriod (strategy : List StrategyLeg) (spot forward realPrice r t mV : ℝ)
    (customVol : Option ℝ) : PeriodResult :=
  let rows := periodOptionPrices strategy spot forward r t customVol
  let sp := strategyPrice rows
  let tp := totalPayoff rows realPrice
  { forward := forward, realPrice := realPrice, strategyPrice := sp, totalPayoff := tp,
    monthlyVolume := mV,
    hedgedCost := mV * (realPrice + sp - tp),
    unhedgedCost := mV * realPrice,
    deltaPnL := mV * realPrice - mV * (realPrice + sp - tp) }

theorem foldl_add_map {α : Type} (f : α → ℝ) (l : List α) (init : ℝ) :
    l.foldl (fun sum a => sum + f a) init = init + (l.map f).sum := by
  induction l generalizing init with
  | nil => simp
  | cons a l ih => simp [ih, add_assoc]

/-! ## Claim C1 -/

/-- C1: in every projected period, unhedgedCost is monthlyVolume times
realPrice, hedgedCost is monthlyVolume times (realPrice + strategyPremium
- totalPayoff), deltaPnL is their difference, strategyPremium is the
quantity-weighted sum of per-leg Black-Scholes premiums priced at the
forward price, and totalPayoff is the quantity-weighted sum of intrinsic
values at the real price. -/
theorem calculateResults_cost_accounting (strategy : List StrategyLeg)
    (spot forward realPrice r t mV : ℝ) (customVol : Option ℝ) :
    (computePeriod strategy spot forward realPrice r t mV customVol).unhedgedCost
        = mV * realPrice
    ∧ (computePeriod strategy spot forward realPrice r t mV customVol).hedgedCost
        = mV * (realPrice
            + (computePeriod strategy spot forward realPrice r t mV customVol).strategyPrice
            - (computePeriod strategy spot forward realPrice r t mV customVol).totalPayoff)
    ∧ (computePeriod strategy spot forward realPrice r t mV customVol).deltaPnL
        = (computePeriod strategy spot forward realPrice r t mV customVol).unhedgedCost
            - (computePeriod strategy spot forward realPrice r t mV customVol).hedgedCost
    ∧ (computePeriod strategy spot forward realPrice r t mV customVol).strategyPrice
        = (strategy.map (fun opt =>
            calculateOptionPrice opt.type forward (resolvedStrike spot opt) r t
              (effectiveVolatility customVol (opt.volatility / 100)) * (opt.quantity / 100))).sum
    ∧ (computePeriod strategy spot forward realPrice r t mV customVol).totalPayoff
        = (strategy.map (fun opt =>
            intrinsicValue opt.type realPrice (resolvedStrike spot opt)
              * (opt.quantity / 100))).sum := by
  refine ⟨rfl, rfl, rfl, ?_, ?_⟩
  · show strategyPrice (periodOptionPrices strategy spot forward r t customVol) = _
    rw [strategyPrice, foldl_add_map]
    simp only [periodOptionPrices, List.map_map, zero_add]
    rfl
  · show totalPayoff (periodOptionPrices strategy spot forward r t customVol) realPrice = _
    rw [totalPayoff, foldl_add_map]
    simp only [periodOptionPrices, List.map_map, zero_add]
    rfl

/-! ## Claim C10 -/

/-- hedgedCost of the Index.tsx variant (negated-cost convention). -/
def hedgedCostIndex (mV realPrice strategyPrice totalPayoff : ℝ) : ℝ :=
  -(mV * realPrice) - (mV * strategyPrice) + (mV * totalPayoff)

/-- unhedgedCost of the Index.tsx variant. -/
def unhedgedCostIndex (mV realPrice : ℝ) : ℝ := -(mV * realPrice)

/-- deltaPnL of the Index.tsx variant: hedged minus unhedged. -/
def deltaPnLIndex (mV realPrice strategyPrice totalPayoff : ℝ) : ℝ :=
  hedgedCostIndex mV realPrice strategyPrice totalPayoff - unhedgedCostIndex mV realPrice

/-- hedgedCost of the part_001 variant (positive-cost convention). -/
def hedgedCostP1 (mV realPrice strategyPrice totalPayoff : ℝ) : ℝ :=
  mV * (realPrice + strategyPrice - totalPayoff)

/-- unhedgedCost of the part_001 variant. -/
def unhedgedCostP1 (mV realPrice : ℝ) : ℝ := mV * realPrice

/-- deltaPnL of the part_001 variant: unhedged minus hedged. -/
def deltaPnLP1 (mV realPrice strategyPrice totalPayoff : ℝ) : ℝ :=
  unhedgedCostP1 mV realPrice - hedgedCostP1 mV realPrice strategyPrice totalPayoff

/-- C10: the two drifted cost-accounting variants agree on deltaPnL, both
reducing to monthlyVolume times (totalPayoff - strategyPrice). -/
theorem deltaPnL_variants_agree (mV realPrice sp tp : ℝ) :
    deltaPnLIndex mV realPrice sp tp = deltaPnLP1 mV realPrice sp tp
    ∧ deltaPnLP1 mV realPrice sp tp = mV * (tp - sp) := by
  unfold deltaPnLIndex deltaPnLP1 hedgedCostIndex unhedgedCostIndex hedgedCostP1 unhedgedCostP1
  constructor <;> ring

/-! ## Scenario engine state (part_001 applyStressTest) -/

/-- The simulation parameters the scenario engine writes. -/
structure RealPriceParams where
  useSimulation : Bool
  volatility : ℚ
  drift : ℚ
  numSimulations : ℕ
deriving Repr

/-- The hedging parameters record of the page state. -/
structure HedgeParams where
  startDate : JsDate
  monthsToHedge : ℕ
  interestRate : ℝ
  totalVolume : ℝ
  spotPrice : ℝ

/-- The page state that applyStressTest reads and writes.  Forward and
real price overrides are keyed by the absolute month index of their JS
year-month key. -/
structure CalcState where
  params : HedgeParams
  initialSpotPrice : ℝ
  realPriceParams : RealPriceParams
  manualForwards : ℕ → Option ℝ
  realPrices : ℕ → Option ℝ
  stressTestScenarios : List (String × StressTestScenario)
  activeStressTest : Option String

/-- Sequential JS object writes: later entries overwrite earlier ones. -/
def writeCurve (f : ℕ → Option ℝ) (entries : List (ℕ × ℝ)) : ℕ → Option ℝ :=
  entries.foldl (fun g e => Function.update g e.1 (some e.2)) f

/-- The manualForwards writes of the forwardBasis branch: loop iteration i
first advances the cumulative current date by one month, then stores
stressedSpot times exp (forwardBasis times (i/12) times 12) under the key
of the advanced date. -/
def fbEntries (start : JsDate) (m : ℕ) (stressedSpot fb : ℝ) : List (ℕ × ℝ) :=
  (List.range m).map (fun i =>
    (monthIdx (stressDate start (i+1)), stressedSpot * Real.exp (fb * ((i : ℝ)/12) * 12)))

/-- The manualForwards writes of the realBasis branch: forward prices at
the risk-free rate only, keyed like the forwardBasis branch. -/
def baseFwdEntries (start : JsDate) (m : ℕ) (stressedSpot r : ℝ) : List (ℕ × ℝ) :=
  (List.range m).map (fun i =>
    (monthIdx (stressDate start (i+1)), stressedSpot * Real.exp ((r/100) * ((i : ℝ)/12))))

/-- The realPrices writes of the realBasis branch. -/
def rbEntries (start : JsDate) (m : ℕ) (stressedSpot rb : ℝ) : List (ℕ × ℝ) :=
  (List.range m).map (fun i =>
    (monthIdx (stressDate start (i+1)), stressedSpot * Real.exp (rb * ((i : ℝ)/12) * 12)))

/-- applyStressTest of part_001 as a state transform: the active marker is
set before the catalog lookup, so an absent key still rewrites it; then
simulation parameters are copied, curves cleared when the corresponding
basis field is defined, and the basis curves written when the basis is
defined and nonzero. -/
def applyStressTest (key : String) (s : CalcState) : CalcState :=
  match s.stressTestScenarios.lookup key with
  | none => { s with activeStressTest := some key }
  | some sc =>
      let stressedSpot := s.initialSpotPrice * (1 + (sc.priceShock : ℝ))
      let rpp := { s.realPriceParams with
        useSimulation := !jsTruthy sc.realBasis,
        volatility := sc.volatility, drift := sc.drift }
      let mf0 : ℕ → Option ℝ := if sc.forwardBasis.isSome then (fun _ => none) else s.manualForwards
      let rp0 : ℕ → Option ℝ := if sc.realBasis.isSome then (fun _ => none) else s.realPrices
      let start := s.params.startDate
      let m := s.params.monthsToHedge
      let mf1 := (match sc.forwardBasis with
        | some fb => if fb = 0 then mf0
                     else writeCurve mf0 (fbEntries start m stressedSpot (fb : ℝ))
        | none => mf0)
      let mf2 := (match sc.realBasis with
        | some _ => if sc.realBasis = some 0 then mf1
                    else writeCurve mf1 (baseFwdEntries start m stressedSpot s.params.interestRate)
        | none => mf1)
      let rp1 := (match sc.realBasis with
        | some rb => if rb = 0 then rp0
                     else writeCurve rp0 (rbEntries start m stressedSpot (rb : ℝ))
        | none => rp0)
      { s with
        realPriceParams := rpp
        manualForwards := mf2
        realPrices := rp1
        activeStressTest := some key }

/-- JS short-circuit or on an optional price: an absent key and a stored
zero both fall back to the default. -/
def jsOr (o : Option ℝ) (dflt : ℝ) : ℝ :=
  match o with
  | some v => if v = 0 then dflt else v
  | none => dflt

/-- The forward price of period i in calculateResults of part_001:
manualForwards at the period month key, or the plain spot price. -/
def projectedForward (s : CalcState) (i : ℕ) : ℝ :=
  jsOr (s.manualForwards (monthIdx (setMonthAdd s.params.startDate i))) s.params.spotPrice

/-- The forward price resolution of src/pages/Index.tsx: manual override,
or spot times exp of rate/100 times elapsed milliseconds over a 365-day
year of milliseconds. -/
def forwardIndex (ov : Option ℝ) (spot r elapsedMs : ℝ) : ℝ :=
  jsOr ov (spot * Real.exp (r/100 * elapsedMs / (1000 * 60 * 60 * 24 * 365)))

theorem writeCurve_snoc (f : ℕ → Option ℝ) (l : List (ℕ × ℝ)) (e : ℕ × ℝ) :
    writeCurve f (l ++ [e]) = Function.update (writeCurve f l) e.1 (some e.2) := by
  unfold writeCurve
  rw [List.foldl_append]
  rfl

theorem fbEntries_succ (start : JsDate) (n : ℕ) (ss fb : ℝ) :
    fbEntries start (n+1) ss fb
      = fbEntries start n ss fb
          ++ [(monthIdx (stressDate start (n+1)), ss * Real.exp (fb * ((n : ℝ)/12) * 12))] := by
  unfold fbEntries
  rw [List.range_succ, List.map_append, List.map_cons, List.map_nil]

theorem writeCurve_fbEntries_hit (start : JsDate) (hday : start.day ≤ 28) {m j : ℕ}
    (ss fb : ℝ) (f : ℕ → Option ℝ) (hj : j < m) :
    writeCurve f (fbEntries start m ss fb) (monthIdx start + j + 1)
      = some (ss * Real.exp (fb * ((j : ℝ)/12) * 12)) := by
  induction m with
  | zero => omega
  | succ n ih =>
      rw [fbEntries_succ, writeCurve_snoc]
      have hkey : monthIdx (stressDate start (n+1)) = monthIdx start + n + 1 := by
        have := (stressDate_monthIdx start hday (n+1)).1
        omega
      rcases Nat.lt_succ_iff_lt_or_eq.1 hj with hlt | heq
      · rw [Function.update_noteq (by rw [hkey]; omega)]
        exact ih hlt
      · subst heq
        rw [hkey]
        exact Function.update_same _ _ _

theorem writeCurve_fbEntries_miss (start : JsDate) (hday : start.day ≤ 28) {m k : ℕ}
    (ss fb : ℝ) (f : ℕ → Option ℝ) (hk : ∀ j, j < m → monthIdx start + j + 1 ≠ k) :
    writeCurve f (fbEntries start m ss fb) k = f k := by
  induction m with
  | zero => rfl
  | succ n ih =>
      rw [fbEntries_succ, writeCurve_snoc]
      have hkey : monthIdx (stressDate start (n+1)) = monthIdx start + n + 1 := by
        have := (stressDate_monthIdx start hday (n+1)).1
        omega
      rw [Function.update_noteq (by rw [hkey]; exact fun h => hk n (by omega) h.symm)]
      exact ih (fun j hjn => hk j (by omega))

/-- When the looked-up scenario has a defined nonzero forwardBasis and no
realBasis, the manualForwards map after applyStressTest is exactly the
cleared map overwritten with the fbEntries writes. -/
theorem applyStressTest_found_manualForwards (key : String) (s : CalcState)
    (sc : StressTestScenario) (fb : ℚ)
    (hlk : s.stressTestScenarios.lookup key = some sc)
    (hfb : sc.forwardBasis = some fb) (hfb0 : fb ≠ 0) (hrb : sc.realBasis = none) :
    (applyStressTest key s).manualForwards
      = writeCurve (fun _ => none)
          (fbEntries s.params.startDate s.params.monthsToHedge
            (s.initialSpotPrice * (1 + (sc.priceShock : ℝ))) (fb : ℝ)) := by
  unfold applyStressTest
  rw [hlk]
  dsimp only
  rw [hfb, hrb]
  dsimp only [Option.isSome_some, Option.isSome_none]
  rw [if_neg hfb0, if_pos rfl]

/-- The simulation parameters written by a successful scenario lookup. -/
theorem applyStressTest_found_realPriceParams (key : String) (s : CalcState)
    (sc : StressTestScenario)
    (hlk : s.stressTestScenarios.lookup key = some sc) :
    (applyStressTest key s).realPriceParams
      = { s.realPriceParams with
          useSimulation := !jsTruthy sc.realBasis
          volatility := sc.volatility
          drift := sc.drift } := by
  unfold applyStressTest
  rw [hlk]

/-- applyStressTest never touches the hedging parameters. -/
theorem applyStressTest_params (key : String) (s : CalcState) :
    (applyStressTest key s).params = s.params := by
  unfold applyStressTest
  cases s.stressTestScenarios.lookup key <;> rfl

/-- A concrete baseline page state for the closed statements below: a
horizon of 3 months starting 2024-01-01, spot 100, interest rate 2, the
default catalog, no overrides, no active scenario. -/
def sampleState : CalcState where
  params :=
    { startDate := ⟨2024, 0, 1⟩
      monthsToHedge := 3
      interestRate := 2
      totalVolume := 300
      spotPrice := 100 }
  initialSpotPrice := 100
  realPriceParams :=
    { useSimulation := true
      volatility := 0.2
      drift := 0.01
      numSimulations := 1000 }
  manualForwards := fun _ => none
  realPrices := fun _ => none
  stressTestScenarios := defaultScenarios
  activeStressTest := none

/-! ## Claim C2 -/

/-- C2 counterexample: contango scenario (forwardBasis 0.01, priceShock 0)
applied to sampleState (spot 100, 3 months from 2024-01-01).  The claim
says the projected period-1 forward is 100 exp (0.01 times 1); in fact
the writes land one month late, so period 1 reads the iteration-0 value
100 exp 0 = 100. -/
theorem stress_forward_period1_not_shifted :
    projectedForward (applyStressTest "contango" sampleState) 1
      ≠ 100 * Real.exp (0.01 * 1) := by
  have hmf := applyStressTest_found_manualForwards "contango" sampleState scnContango 0.01
    rfl rfl (by norm_num) rfl
  have hkey : monthIdx (setMonthAdd sampleState.params.startDate 1)
      = monthIdx sampleState.params.startDate + 0 + 1 := by
    have := (setMonthAdd_monthIdx sampleState.params.startDate 1 (by decide)).1
    omega
  have hval := writeCurve_fbEntries_hit sampleState.params.startDate (by decide)
    (sampleState.initialSpotPrice * (1 + ((scnContango.priceShock : ℚ) : ℝ))) ((0.01 : ℚ) : ℝ)
    (fun _ => none) (show 0 < sampleState.params.monthsToHedge by decide)
  unfold projectedForward
  rw [applyStressTest_params, hmf, hkey, hval]
  have hv : sampleState.initialSpotPrice * (1 + ((scnContango.priceShock : ℚ) : ℝ))
      * Real.exp (((0.01 : ℚ) : ℝ) * (((0 : ℕ) : ℝ)/12) * 12) = 100 := by
    show (100 : ℝ) * (1 + ((0 : ℚ) : ℝ)) * Real.exp (((0.01 : ℚ) : ℝ) * (((0 : ℕ) : ℝ)/12) * 12)
      = 100
    norm_num
  simp only [jsOr]
  rw [if_neg (by rw [hv]; norm_num), hv]
  show (100 : ℝ) ≠ 100 * Real.exp (0.01 * 1)
  intro h
  have hexp : Real.exp ((0.01 : ℝ) * 1) = 1 := by
    have h100 : (100 : ℝ) ≠ 0 := by norm_num
    field_simp at h
    linarith
  rw [Real.exp_eq_one_iff] at hexp
  norm_num at hexp

/-- C2 amended: with a defined nonzero forwardBasis and no realBasis, the
scenario writes stressedSpot times exp (forwardBasis times i) under the
key one month after period i, for loop iterations i in the range of the
horizon.  The subsequent part_001 projection therefore reads, for period
i at least 1, the iteration i-1 value stressedSpot times
exp (forwardBasis times (i-1)), while period 0 finds no override and
falls back to the plain spot price. -/
theorem applyStressTest_forward_curve (s : CalcState) (key : String)
    (sc : StressTestScenario) (fb : ℚ) (i : ℕ)
    (hlk : s.stressTestScenarios.lookup key = some sc)
    (hfb : sc.forwardBasis = some fb) (hfb0 : fb ≠ 0) (hrb : sc.realBasis = none)
    (hday : s.params.startDate.day ≤ 28) (hm : i < s.params.monthsToHedge)
    (hspot : 0 < s.initialSpotPrice * (1 + (sc.priceShock : ℝ))) :
    (1 ≤ i → projectedForward (applyStressTest key s) i
        = s.initialSpotPrice * (1 + (sc.priceShock : ℝ))
            * Real.exp ((fb : ℝ) * (((i - 1 : ℕ) : ℝ)/12) * 12))
    ∧ projectedForward (applyStressTest key s) 0 = s.params.spotPrice := by
  have hmf := applyStressTest_found_manualForwards key s sc fb hlk hfb hfb0 hrb
  constructor
  · intro h1
    have hkey : monthIdx (setMonthAdd s.params.startDate i)
        = monthIdx s.params.startDate + (i - 1) + 1 := by
      have := (setMonthAdd_monthIdx s.params.startDate i hday).1
      omega
    have hval := writeCurve_fbEntries_hit s.params.startDate hday
      (s.initialSpotPrice * (1 + (sc.priceShock : ℝ))) ((fb : ℚ) : ℝ)
      (fun _ => none) (show i - 1 < s.params.monthsToHedge by omega)
    unfold projectedForward
    rw [applyStressTest_params, hmf, hkey, hval]
    simp only [jsOr]
    rw [if_neg (ne_of_gt (mul_pos hspot (Real.exp_pos _)))]
  · have hkey : monthIdx (setMonthAdd s.params.startDate 0) = monthIdx s.params.startDate := by
      have := (setMonthAdd_monthIdx s.params.startDate 0 hday).1
      omega
    have hnone := writeCurve_fbEntries_miss s.params.startDate hday
      (s.initialSpotPrice * (1 + (sc.priceShock : ℝ))) ((fb : ℚ) : ℝ)
      (fun _ => none)
      (show ∀ j, j < s.params.monthsToHedge
        → monthIdx s.params.startDate + j + 1 ≠ monthIdx s.params.startDate from
        fun j _ => by omega)
    unfold projectedForward
    rw [applyStressTest_params, hmf, hkey, hnone]
    rfl

/-- Witness for C2 amended: contango on sampleState, period 2 reads the
iteration-1 value. -/
theorem applyStressTest_forward_curve_witness :
    (1 ≤ 2)
    ∧ projectedForward (applyStressTest "contango" sampleState) 2
        = sampleState.initialSpotPrice * (1 + ((scnContango.priceShock : ℚ) : ℝ))
            * Real.exp (((0.01 : ℚ) : ℝ) * (((2 - 1 : ℕ) : ℝ)/12) * 12) :=
  ⟨by norm_num,
    (applyStressTest_forward_curve sampleState "contango" scnContango 0.01 2
      rfl rfl (by norm_num) rfl (by decide) (by decide)
      (by show (0:ℝ) < 100 * (1 + ((0 : ℚ) : ℝ)); norm_num)).1 (by norm_num)⟩

/-! ## Claim C5 -/

/-- C5 counterexample: with no manual override, the part_001 projector
returns the plain spot price for period 1, not spot times the claimed
carry factor exp (rate times elapsed years): here 100 versus
100 exp ((2/100) (31/365)). -/
theorem projected_forward_has_no_carry :
    projectedForward sampleState 1
      ≠ sampleState.params.spotPrice
          * Real.exp (sampleState.params.interestRate / 100 * (31/365)) := by
  have h1 : projectedForward sampleState 1 = 100 := rfl
  rw [h1]
  show (100 : ℝ) ≠ 100 * Real.exp ((2 : ℝ) / 100 * (31/365))
  intro h
  have hexp : Real.exp ((2 : ℝ) / 100 * (31/365)) = 1 := by
    linarith
  rw [Real.exp_eq_one_iff] at hexp
  norm_num at hexp

/-- C5 amended: a present and nonzero override is returned as is by both
projector variants; an absent key, or a key stored with value 0 (the JS
short-circuit or treats it as absent), falls back to spot times
exp (rate/100 times elapsed milliseconds over a 365-day year) in the
Index.tsx variant and to the plain spot price in the part_001 variant. -/
theorem forward_price_resolution (spot r ems : ℝ) (s : CalcState) (i : ℕ) :
    (∀ v : ℝ, v ≠ 0 → forwardIndex (some v) spot r ems = v)
    ∧ forwardIndex none spot r ems
        = spot * Real.exp (r/100 * ems / (1000 * 60 * 60 * 24 * 365))
    ∧ forwardIndex (some 0) spot r ems
        = spot * Real.exp (r/100 * ems / (1000 * 60 * 60 * 24 * 365))
    ∧ (∀ v : ℝ, s.manualForwards (monthIdx (setMonthAdd s.params.startDate i)) = some v
        → v ≠ 0 → projectedForward s i = v)
    ∧ (s.manualForwards (monthIdx (setMonthAdd s.params.startDate i)) = none
        → projectedForward s i = s.params.spotPrice)
    ∧ (s.manualForwards (monthIdx (setMonthAdd s.params.startDate i)) = some 0
        → projectedForward s i = s.params.spotPrice) := by
  refine ⟨?_, rfl, ?_, ?_, ?_, ?_⟩
  · intro v hv
    simp only [forwardIndex, jsOr]
    rw [if_neg hv]
  · simp [forwardIndex, jsOr]
  · intro v hov hv
    unfold projectedForward
    rw [hov]
    simp only [jsOr]
    rw [if_neg hv]
  · intro hov
    unfold projectedForward
    rw [hov]
    rfl
  · intro hov
    unfold projectedForward
    rw [hov]
    simp [jsOr]

/-- Witness for C5 amended on sampleState: no override is present for
period 1, so the part_001 projector returns the spot price. -/
theorem forward_price_resolution_witness :
    ((2 : ℝ) ≠ 0
      ∧ sampleState.manualForwards (monthIdx (setMonthAdd sampleState.params.startDate 1)) = none)
    ∧ forwardIndex (some 2) 100 2 0 = 2
    ∧ projectedForward sampleState 1 = sampleState.params.spotPrice :=
  ⟨⟨by norm_num, rfl⟩,
    (forward_price_resolution 100 2 0 sampleState 1).1 2 (by norm_num),
    (forward_price_resolution 100 2 0 sampleState 1).2.2.2.2.1 rfl⟩

/-! ## Claim C7 -/

/-- C7: for every scenario of the built-in catalog, applying it sets
useSimulation to true exactly when the scenario has no realBasis, and
copies volatility and drift from the scenario.  The catalog defines
realBasis only on the two real-price scenarios, with nonzero values, so
the JS truthiness test coincides with definedness on the catalog. -/
theorem applyStressTest_simulation_params (e : String × StressTestScenario)
    (he : e ∈ defaultScenarios) (s : CalcState)
    (hs : s.stressTestScenarios = defaultScenarios) :
    ((applyStressTest e.1 s).realPriceParams.useSimulation = true ↔ e.2.realBasis = none)
    ∧ (applyStressTest e.1 s).realPriceParams.volatility = e.2.volatility
    ∧ (applyStressTest e.1 s).realPriceParams.drift = e.2.drift := by
  have hlk : s.stressTestScenarios.lookup e.1 = some e.2 := by
    rw [hs]
    unfold defaultScenarios at he
    fin_cases he <;> rfl
  rw [applyStressTest_found_realPriceParams e.1 s e.2 hlk]
  refine ⟨?_, rfl, rfl⟩
  show (!jsTruthy e.2.realBasis) = true ↔ e.2.realBasis = none
  unfold defaultScenarios at he
  fin_cases he <;>
    norm_num [jsTruthy, scnBase, scnHighVol, scnCrash, scnBull, scnContango,
      scnBackwardation, scnContangoReal, scnBackwardationReal, scnCustom] <;>
    simp

/-- Witness for C7 at the contangoReal scenario on sampleState. -/
theorem applyStressTest_simulation_params_witness :
    (("contangoReal", scnContangoReal) ∈ defaultScenarios
      ∧ sampleState.stressTestScenarios = defaultScenarios)
    ∧ (((applyStressTest "contangoReal" sampleState).realPriceParams.useSimulation = true)
        ↔ scnContangoReal.realBasis = none) :=
  ⟨⟨List.Mem.tail _ (List.Mem.tail _ (List.Mem.tail _ (List.Mem.tail _ (List.Mem.tail _
      (List.Mem.tail _ (List.Mem.head _)))))), rfl⟩,
    (applyStressTest_simulation_params ("contangoReal", scnContangoReal)
      (List.Mem.tail _ (List.Mem.tail _ (List.Mem.tail _ (List.Mem.tail _ (List.Mem.tail _
        (List.Mem.tail _ (List.Mem.head _))))))) sampleState rfl).1⟩

/-! ## Claim C8 -/

/-- C8 counterexample: applying an absent scenario key is not a complete
no-op, because the active-scenario marker is set before the lookup guard:
on sampleState, whose marker is none, the marker becomes the absent key. -/
theorem applyStressTest_missing_key_not_noop :
    applyStressTest "nonexistent" sampleState ≠ sampleState := fun h =>
  Option.noConfusion (show (some "nonexistent" : Option String) = none from
    congrArg CalcState.activeStressTest h)

/-- C8 amended: applying an absent scenario key leaves the parameters,
simulation parameters, overrides and catalog unchanged and does not
crash, but it does set the active-scenario marker to the absent key. -/
theorem applyStressTest_absent_scenario (s : CalcState) (key : String)
    (h : s.stressTestScenarios.lookup key = none) :
    applyStressTest key s = { s with activeStressTest := some key } := by
  unfold applyStressTest
  rw [h]

/-- Witness for C8 amended on sampleState with an absent key. -/
theorem applyStressTest_absent_scenario_witness :
    sampleState.stressTestScenarios.lookup "nonexistent" = none
    ∧ applyStressTest "nonexistent" sampleState
        = { sampleState with activeStressTest := some "nonexistent" } :=
  ⟨rfl, applyStressTest_absent_scenario sampleState "nonexistent" rfl⟩

end

end OptionsSim
